import Mathlib

/-!
Verification model of the voice-recorder push-to-record dictation utility.

The model is a shallow embedding of the recording/transcription/retry state
machine spread over the Electron main process (`main.js`, with the
`transcribe-audio` finally block, the `retry-transcription` handler and
`cancelPendingRetry` taken from the revision in `src/unnamed/part_003`) and
the renderer (`renderer.js`).

Main-process mutable globals (`lastFailedMp3Path`, `isProcessingShortcut`,
window visibility) become fields of `MainState`; the renderer's
`currentState` becomes `SysState.ui`.  On-disk temp files are a list of
(path, size) pairs; timestamped file names `rec-input-<ts>.webm` /
`rec-output-<ts>.mp3` become the constructors of `TempPath`.  External
collaborators (the OpenAI call, ffmpeg, the clipboard/paste step, the
microphone) are oracles passed in as parameters (`AttemptEnv`,
`ConversionOutcome`, `micOk`), so every code path of the handlers is a choice
of the environment.  Side effects that claims observe (hide requests,
dialogs, clipboard writes, dropped shortcut presses) are returned as `Event`
lists.
-/

/-- Temp file paths.  The source builds `path.join(os.tmpdir(),
`rec-input-<timestamp>.webm`)` and `rec-output-<timestamp>.mp3`; the
timestamp is the only varying part, so a path is one of the two shapes
tagged with its timestamp. -/
inductive TempPath where
  | webm (ts : Nat)
  | mp3 (ts : Nat)
deriving DecidableEq, Repr

def TempPath.isMp3 : TempPath → Bool
  | .webm _ => false
  | .mp3 _ => true

/-- The on-disk temp directory: a list of (path, size-in-bytes) pairs. -/
abbrev Disk := List (TempPath × Nat)

/-- `fs.promises.writeFile` / ffmpeg `-y`: create or overwrite the file. -/
def diskWrite (d : Disk) (p : TempPath) (sz : Nat) : Disk :=
  (p, sz) :: d.filter (fun f => !(f.1 == p))

/-- `cleanupTempFile` (main.js): best-effort `fs.promises.unlink`; a missing
file is non-fatal, so the embedding is simply removal. -/
def cleanupTempFile (d : Disk) (p : TempPath) : Disk :=
  d.filter (fun f => !(f.1 == p))

/-- Whether a path currently exists on disk (`fs.promises.access`). -/
def diskHas (d : Disk) (p : TempPath) : Bool :=
  d.any (fun f => f.1 == p)

/-- Main-process state: the module-level mutable variables of `main.js`. -/
structure MainState where
  /-- `lastFailedMp3Path`: the pending-retry slot. -/
  lastFailedMp3Path : Option TempPath
  /-- the OS temp directory contents -/
  disk : Disk
  /-- `mainWindow.isVisible()` -/
  windowVisible : Bool
  /-- `isProcessingShortcut`: the hotkey re-entrancy lock. -/
  isProcessingShortcut : Bool
  /-- `Date.now()` as a monotone counter used for temp-file names. -/
  clock : Nat
deriving DecidableEq, Repr

/-- Renderer UI state, `currentState` in `renderer.js`. -/
inductive UIState where
  | idle
  | recording
  | processing
  | error
deriving DecidableEq, Repr

/-- Combined system state. -/
structure SysState where
  main : MainState
  ui : UIState
deriving DecidableEq, Repr

/-- Observable side effects of the handlers. -/
inductive Event where
  /-- an invocation of `hideMainWindow` (the hide-overlay signal) -/
  | hideRequest
  /-- `dialog.showErrorBox` (the external failure notification) -/
  | dialogShown
  /-- a hotkey press dropped by the re-entrancy lock (with a log) -/
  | droppedShortcut
  /-- `openai.audio.transcriptions.create` was invoked -/
  | serviceCall
  /-- `clipboard.writeText(text)` -/
  | clipboardWrite (text : String)
  /-- the platform paste command was invoked -/
  | pasteInvoke
  /-- `trigger-stop-recording` sent to the renderer -/
  | trigStop
  /-- `trigger-start-recording` sent to the renderer -/
  | trigStart
deriving DecidableEq, Repr

/-- The shape of a caught JS error as the source discriminates it:
`instanceof OpenAI.APIError`, `error.status`, `error.code`, `error.message`. -/
structure JSError where
  isAPIError : Bool
  status : Option Nat
  code : Option String
  message : String
deriving DecidableEq, Repr

/-- Result object `{ success, error, retryable, transcriptionText }`
returned by the transcription handlers (main.js). -/
structure OperationStatus where
  success : Bool
  error : Option String
  retryable : Bool
  transcriptionText : Option String
deriving DecidableEq, Repr

/-- What the external transcription service does when called. -/
inductive TranscriptionOutcome where
  /-- the call returns `{ text }` -/
  | ok (text : String)
  /-- the call throws `e` -/
  | err (e : JSError)
deriving DecidableEq, Repr

/-- What the clipboard-write + paste step does when attempted. -/
inductive PasteOutcome where
  | ok
  /-- `clipboard.writeText` throws before the paste is attempted -/
  | clipboardFail (msg : String)
  /-- the paste command throws (after the pre-paste hide) -/
  | pasteFail (msg : String)
deriving DecidableEq, Repr

/-- Environment of one transcription attempt. -/
structure AttemptEnv where
  svc : TranscriptionOutcome
  copyPaste : PasteOutcome
deriving DecidableEq, Repr

/-- What ffmpeg does: produce an output file of a given size (0 when the
input was all silence), or fail without producing output. -/
inductive ConversionOutcome where
  | output (sz : Nat)
  | failure (msg : String)
deriving DecidableEq, Repr

/-- `String.prototype.trim`: strip leading and trailing whitespace
(structural implementation over the character list). -/
def jsTrim (s : String) : String :=
  String.mk
    (((s.toList.dropWhile Char.isWhitespace).reverse.dropWhile
        Char.isWhitespace).reverse)

/-- Whether `pat` is a leading segment of `s` (character lists). -/
def charsLead : List Char → List Char → Bool
  | [], _ => true
  | _ :: _, [] => false
  | c :: cs, d :: ds => (c == d) && charsLead cs ds

/-- Whether `pat` occurs somewhere inside `s` (character lists). -/
def charsContain : List Char → List Char → Bool
  | [], pat => pat.isEmpty
  | c :: rest, pat => charsLead pat (c :: rest) || charsContain rest pat

/-- Substring test, used for the `error.includes(...)` checks in the
dialog-suppression logic of the finally blocks. -/
def strContains (s pat : String) : Bool :=
  charsContain s.toList pat.toList

/-- `hideMainWindow` (main.js): hide the window only when it is visible and
no retry is pending. -/
def hideMainWindow (m : MainState) : MainState :=
  if m.windowVisible && m.lastFailedMp3Path.isNone then
    { m with windowVisible := false }
  else m

/-- The pre-paste hide inside `pasteTextIntoActiveWindow` (main.js): hide
the recorder window before pasting, unless a retry is pending. -/
def pasteHideStep (m : MainState) : MainState :=
  if m.windowVisible && m.lastFailedMp3Path.isNone then
    { m with windowVisible := false }
  else m

/-- `isRetryableError` (main.js): an `OpenAI.APIError` whose status is one
of 408, 429, 500, 502, 503, 504. -/
def isRetryableError (e : JSError) : Bool :=
  if e.isAPIError then
    match e.status with
    | some s => [408, 429, 500, 502, 503, 504].contains s
    | none => false
  else false

/-- Node network error codes checked in the catch block of
`_performTranscriptionAndPasting` (main.js). -/
def isNetworkCode : Option String → Bool
  | some c => ["ECONNRESET", "ETIMEDOUT", "ENOTFOUND"].contains c
  | none => false

/-- The catch block of `_performTranscriptionAndPasting` (main.js):
classify the thrown error and build the failure status. -/
def catchStatus (e : JSError) : OperationStatus :=
  let retry0 := isRetryableError e
  if e.isAPIError then
    { success := false, retryable := retry0,
      error := some ("OpenAI Error: " ++
        (if e.message = "" then "Failed to transcribe." else e.message)),
      transcriptionText := none }
  else if e.code = some "ENOENT" then
    { success := false, retryable := false,
      error := some "Internal error: MP3 file not found.",
      transcriptionText := none }
  else if isNetworkCode e.code then
    { success := false, retryable := true,
      error := some ("Network Error: " ++ e.message),
      transcriptionText := none }
  else
    { success := false, retryable := retry0, error := some e.message,
      transcriptionText := none }

/-- The error thrown by `fs.promises.access` on a missing file. -/
def enoentError : JSError :=
  { isAPIError := false, status := none, code := some "ENOENT",
    message := "no such file or directory" }

/-- The terminal status built when the clipboard write or the paste
invocation throws (main.js): the message records that the text is already
on the clipboard. -/
def pasteFailStatus (text msg : String) : OperationStatus :=
  { success := false, retryable := false,
    error := some ("Paste failed: " ++ msg ++ ". Text copied."),
    transcriptionText := some text }

/-- `_performTranscriptionAndPasting` (main.js): one attempt of
access-check, service call, trim, clipboard write and paste. -/
def performTranscriptionAndPasting (m : MainState) (p : TempPath)
    (env : AttemptEnv) : MainState × OperationStatus × List Event :=
  if diskHas m.disk p then
    match env.svc with
    | .err e => (m, catchStatus e, [.serviceCall])
    | .ok raw =>
      let text := jsTrim raw
      if text = "" then
        (m, { success := true,
              error := some "Transcription returned empty result.",
              retryable := false, transcriptionText := some text },
         [.serviceCall])
      else
        match env.copyPaste with
        | .clipboardFail msg =>
            (m, pasteFailStatus text msg, [.serviceCall])
        | .pasteFail msg =>
            (pasteHideStep m, pasteFailStatus text msg,
             [.serviceCall, .clipboardWrite text, .pasteInvoke])
        | .ok =>
            (pasteHideStep m,
             { success := true, error := none, retryable := false,
               transcriptionText := some text },
             [.serviceCall, .clipboardWrite text, .pasteInvoke])
  else
    (m, catchStatus enoentError, [])

/-- The cleanup-previous-state prologue of the `transcribe-audio` handler:
a held retryable-failure artifact is disposed and the slot cleared before
anything new is created. -/
def cleanupPreviousRetry (m : MainState) : MainState :=
  match m.lastFailedMp3Path with
  | some p =>
      { m with lastFailedMp3Path := none, disk := cleanupTempFile m.disk p }
  | none => m

/-- The finally block of the `transcribe-audio` handler (part_003
l.440-468): keep the mp3 in the slot on a retryable failure, otherwise
delete the temp files, possibly show an error dialog, and hide the
window. -/
def finalizeTranscribe (m : MainState) (ts : Nat) (mp3FileCreated : Bool)
    (res : OperationStatus) (evs : List Event) :
    MainState × OperationStatus × List Event :=
  if res.retryable then
    ({ m with lastFailedMp3Path := some (TempPath.mp3 ts),
              disk := cleanupTempFile m.disk (TempPath.webm ts) },
     res, evs)
  else
    let d1 := cleanupTempFile m.disk (TempPath.webm ts)
    let d2 := if mp3FileCreated then cleanupTempFile d1 (TempPath.mp3 ts) else d1
    let evDialog :=
      if !res.success && !res.retryable then
        match res.error with
        | some msg =>
            if strContains msg "silence" then []
            else if strContains msg "copy/paste failed" then []
            else [Event.dialogShown]
        | none => []
      else []
    (hideMainWindow { m with disk := d2 }, res,
     evs ++ evDialog ++ [Event.hideRequest])

/-- The `transcribe-audio` IPC handler: cleanup of a stale retry artifact,
temp-file creation, ffmpeg conversion (silence handling), the transcription
attempt, and the finally block. -/
def transcribeAudioHandler (m0 : MainState) (audioLen : Nat)
    (conv : ConversionOutcome) (env : AttemptEnv) :
    MainState × OperationStatus × List Event :=
  let m := cleanupPreviousRetry m0
  if audioLen = 0 then
    (m, { success := false, error := some "No audio data received.",
          retryable := false, transcriptionText := none }, [])
  else
    let ts := m.clock
    let m := { m with clock := m.clock + 1,
                      disk := diskWrite m.disk (TempPath.webm ts) audioLen }
    match conv with
    | .failure msg =>
        finalizeTranscribe m ts false
          { success := false, error := some msg, retryable := false,
            transcriptionText := none } []
    | .output sz =>
        let m := { m with disk := diskWrite m.disk (TempPath.mp3 ts) sz }
        if sz = 0 then
          finalizeTranscribe m ts false
            { success := true,
              error := some "Recording contained only silence.",
              retryable := false, transcriptionText := some "" } []
        else
          let r := performTranscriptionAndPasting m (TempPath.mp3 ts) env
          finalizeTranscribe r.1 ts true r.2.1 r.2.2

/-- The result returned by the `retry-transcription` handler when no failed
attempt is stored. -/
def noPendingRetryResult : OperationStatus :=
  { success := false,
    error := some "No previous failed attempt found to retry.",
    retryable := false, transcriptionText := none }

/-- The state at the moment the retry handler re-invokes the transcription
operation: the slot is cleared before the attempt (part_003 l.480-481). -/
def retryAttemptState (m : MainState) : MainState :=
  { m with lastFailedMp3Path := none }

/-- The `retry-transcription` IPC handler (part_003 l.471-521). -/
def retryTranscriptionHandler (m : MainState) (env : AttemptEnv) :
    MainState × OperationStatus × List Event :=
  match m.lastFailedMp3Path with
  | none => (m, noPendingRetryResult, [])
  | some p =>
    let m1 := retryAttemptState m
    let r := performTranscriptionAndPasting m1 p env
    let m2 := r.1
    let res := r.2.1
    let evs := r.2.2
    if res.success then
      (hideMainWindow { m2 with disk := cleanupTempFile m2.disk p }, res,
       evs ++ [Event.hideRequest])
    else if res.retryable then
      ({ m2 with lastFailedMp3Path := some p }, res, evs)
    else
      let evDialog :=
        match res.error with
        | some msg =>
            if strContains msg "copy/paste failed" then [] else [Event.dialogShown]
        | none => []
      (hideMainWindow { m2 with disk := cleanupTempFile m2.disk p }, res,
       evs ++ evDialog ++ [Event.hideRequest])

/-- `cancelPendingRetry` (part_003 l.524-541): dispose any held artifact,
clear the slot, and invoke `hideMainWindow` in either case. -/
def cancelPendingRetry (m : MainState) : MainState × List Event :=
  match m.lastFailedMp3Path with
  | some p =>
      (hideMainWindow
        { m with lastFailedMp3Path := none, disk := cleanupTempFile m.disk p },
       [Event.hideRequest])
  | none => (hideMainWindow m, [Event.hideRequest])

/-- The decision the hotkey handler dispatches. -/
inductive Decision where
  | cancelRetry
  | stopSignal
  | startShow
deriving DecidableEq, Repr

/-- The `globalShortcut.register` callback (main.js l.196-262): the
re-entrancy lock, then cancel / stop / show-and-start by priority.  The
lock release is the deferred `setTimeout(..., 0)` callback, modelled as the
separate `Op.releaseKeyLock` step. -/
def pressShortcut (s : SysState) : SysState × Option Decision × List Event :=
  if s.main.isProcessingShortcut then
    (s, none, [Event.droppedShortcut])
  else
    let m := { s.main with isProcessingShortcut := true }
    match m.lastFailedMp3Path with
    | some _ =>
        let r := cancelPendingRetry m
        ({ s with main := r.1 }, some Decision.cancelRetry, r.2)
    | none =>
        if m.windowVisible then
          ({ s with main := m }, some Decision.stopSignal, [Event.trigStop])
        else
          ({ s with main := { m with windowVisible := true } },
           some Decision.startShow, [Event.trigStart])

/-- User-level atomic operations of the combined system. -/
inductive Op where
  /-- renderer `startRecording` (micOk: `getUserMedia` succeeded) -/
  | startRecording (micOk : Bool)
  /-- renderer `stopRecording(false)` and its `handleStop` branch -/
  | stopCancel
  /-- renderer `stopRecording(true)`, the main transcription round trip,
  and the renderer result handling -/
  | stopSave (audioLen : Nat) (conv : ConversionOutcome) (env : AttemptEnv)
  /-- renderer `handleRetry`, the main retry round trip, result handling -/
  | retryClick (env : AttemptEnv)
  /-- renderer `handleCancelError` -/
  | cancelClick
  /-- renderer `hide-window` IPC request -/
  | hideRequestIPC
  /-- the window blur handler -/
  | blur
  /-- a global hotkey press -/
  | pressKey
  /-- the deferred release of the shortcut lock -/
  | releaseKeyLock

/-- One atomic step of the combined system. -/
def sysStep (s : SysState) (op : Op) : SysState × List Event :=
  match op with
  | .startRecording micOk =>
      if s.ui = UIState.idle then
        if micOk then ({ s with ui := UIState.recording }, []) else (s, [])
      else (s, [])
  | .stopCancel =>
      if s.ui = UIState.recording then
        ({ main := hideMainWindow s.main, ui := UIState.idle },
         [Event.hideRequest])
      else (s, [])
  | .stopSave audioLen conv env =>
      if s.ui = UIState.recording then
        if audioLen = 0 then
          ({ main := hideMainWindow s.main, ui := UIState.idle },
           [Event.hideRequest])
        else
          let r := transcribeAudioHandler s.main audioLen conv env
          if r.2.1.success then ({ main := r.1, ui := UIState.idle }, r.2.2)
          else ({ main := r.1, ui := UIState.error }, r.2.2)
      else (s, [])
  | .retryClick env =>
      if s.ui = UIState.error then
        let r := retryTranscriptionHandler s.main env
        if r.2.1.success then ({ main := r.1, ui := UIState.idle }, r.2.2)
        else ({ main := r.1, ui := UIState.error }, r.2.2)
      else (s, [])
  | .cancelClick =>
      if s.ui = UIState.error then
        let r := cancelPendingRetry s.main
        ({ main := r.1, ui := UIState.idle }, r.2)
      else (s, [])
  | .hideRequestIPC =>
      ({ s with main := hideMainWindow s.main }, [Event.hideRequest])
  | .blur =>
      ({ s with main := hideMainWindow s.main }, [Event.hideRequest])
  | .pressKey =>
      let r := pressShortcut s
      (r.1, r.2.2)
  | .releaseKeyLock =>
      ({ s with main := { s.main with isProcessingShortcut := false } }, [])

/-- Initial state at process start: no pending retry, empty temp dir,
window hidden, lock free, idle UI. -/
def initState : SysState :=
  { main := { lastFailedMp3Path := none, disk := [], windowVisible := false,
              isProcessingShortcut := false, clock := 0 },
    ui := UIState.idle }

/-- Run a sequence of operations from a state. -/
def runFrom : List Op → SysState → SysState
  | [], s => s
  | op :: ops, s => runFrom ops (sysStep s op).1

/-- Run a sequence of operations from the initial state. -/
def runOps (ops : List Op) : SysState :=
  runFrom ops initState

/-- A PendingArtifact on disk: a non-empty converted (mp3) file.  A
zero-byte conversion output is the SilentInput outcome, not a
PendingArtifact. -/
def liveArtifacts (d : Disk) : List TempPath :=
  (d.filter (fun f => f.1.isMp3 && f.2 != 0)).map (fun f => f.1)

/-! ### Disk and artifact lemmas -/

theorem liveArtifacts_cleanupTempFile (d : Disk) (p : TempPath) :
    liveArtifacts (cleanupTempFile d p) =
      (liveArtifacts d).filter (fun q => !(q == p)) := by
  induction d with
  | nil => rfl
  | cons f rest ih =>
    by_cases hp : (f.1 == p) = true
    · by_cases ha : (f.1.isMp3 && f.2 != 0) = true
      · simp [liveArtifacts, cleanupTempFile, List.filter_cons, hp, ha] at ih ⊢
        exact ih
      · simp [liveArtifacts, cleanupTempFile, List.filter_cons, hp, ha] at ih ⊢
        exact ih
    · by_cases ha : (f.1.isMp3 && f.2 != 0) = true
      · simp [liveArtifacts, cleanupTempFile, List.filter_cons, hp, ha] at ih ⊢
        exact ih
      · simp [liveArtifacts, cleanupTempFile, List.filter_cons, hp, ha] at ih ⊢
        exact ih

theorem liveArtifacts_cons (f : TempPath × Nat) (d : Disk) :
    liveArtifacts (f :: d) =
      (if (f.1.isMp3 && f.2 != 0) = true then [f.1] else []) ++
        liveArtifacts d := by
  by_cases h : (f.1.isMp3 && f.2 != 0) = true <;>
    simp [liveArtifacts, List.filter_cons, h]

theorem liveArtifacts_diskWrite (d : Disk) (p : TempPath) (sz : Nat) :
    liveArtifacts (diskWrite d p sz) =
      (if (p.isMp3 && sz != 0) = true then [p] else []) ++
        (liveArtifacts d).filter (fun q => !(q == p)) := by
  show liveArtifacts ((p, sz) :: cleanupTempFile d p) = _
  rw [liveArtifacts_cons, liveArtifacts_cleanupTempFile]

theorem diskHas_cleanupTempFile_self (d : Disk) (p : TempPath) :
    diskHas (cleanupTempFile d p) p = false := by
  induction d with
  | nil => rfl
  | cons f rest ih =>
    by_cases hp : (f.1 == p) = true
    · simp [diskHas, cleanupTempFile, List.filter_cons, hp, ih]
    · simp [diskHas, cleanupTempFile, List.filter_cons, hp, ih]

/-! ### Field-preservation lemmas for the window helpers -/

@[simp] theorem hideMainWindow_disk (m : MainState) :
    (hideMainWindow m).disk = m.disk := by
  unfold hideMainWindow; split <;> rfl

@[simp] theorem hideMainWindow_slot (m : MainState) :
    (hideMainWindow m).lastFailedMp3Path = m.lastFailedMp3Path := by
  unfold hideMainWindow; split <;> rfl

@[simp] theorem hideMainWindow_clock (m : MainState) :
    (hideMainWindow m).clock = m.clock := by
  unfold hideMainWindow; split <;> rfl

@[simp] theorem hideMainWindow_lock (m : MainState) :
    (hideMainWindow m).isProcessingShortcut = m.isProcessingShortcut := by
  unfold hideMainWindow; split <;> rfl

@[simp] theorem pasteHideStep_disk (m : MainState) :
    (pasteHideStep m).disk = m.disk := by
  unfold pasteHideStep; split <;> rfl

@[simp] theorem pasteHideStep_slot (m : MainState) :
    (pasteHideStep m).lastFailedMp3Path = m.lastFailedMp3Path := by
  unfold pasteHideStep; split <;> rfl

theorem performTranscriptionAndPasting_disk (m : MainState) (p : TempPath)
    (env : AttemptEnv) :
    (performTranscriptionAndPasting m p env).1.disk = m.disk := by
  obtain ⟨svc, cp⟩ := env
  cases hd : diskHas m.disk p with
  | false => simp [performTranscriptionAndPasting, hd]
  | true =>
    cases svc with
    | err e => simp [performTranscriptionAndPasting, hd]
    | ok raw =>
      by_cases ht : jsTrim raw = "" <;>
        cases cp <;> simp [performTranscriptionAndPasting, hd, ht]

theorem performTranscriptionAndPasting_slot (m : MainState) (p : TempPath)
    (env : AttemptEnv) :
    (performTranscriptionAndPasting m p env).1.lastFailedMp3Path =
      m.lastFailedMp3Path := by
  obtain ⟨svc, cp⟩ := env
  cases hd : diskHas m.disk p with
  | false => simp [performTranscriptionAndPasting, hd]
  | true =>
    cases svc with
    | err e => simp [performTranscriptionAndPasting, hd]
    | ok raw =>
      by_cases ht : jsTrim raw = "" <;>
        cases cp <;> simp [performTranscriptionAndPasting, hd, ht]

theorem catchStatus_not_success (e : JSError) :
    (catchStatus e).success = false := by
  simp only [catchStatus]
  split
  · rfl
  · split
    · rfl
    · split <;> rfl

theorem performTranscriptionAndPasting_retryable_not_success
    (m : MainState) (p : TempPath) (env : AttemptEnv)
    (h : (performTranscriptionAndPasting m p env).2.1.retryable = true) :
    (performTranscriptionAndPasting m p env).2.1.success = false := by
  obtain ⟨svc, cp⟩ := env
  cases hd : diskHas m.disk p with
  | false => simp [performTranscriptionAndPasting, hd, catchStatus_not_success]
  | true =>
    cases svc with
    | err e => simp [performTranscriptionAndPasting, hd, catchStatus_not_success]
    | ok raw =>
      by_cases ht : jsTrim raw = "" <;>
        cases cp <;>
          simp [performTranscriptionAndPasting, hd, ht, pasteFailStatus] at h ⊢

/-! ### The slot/artifact invariant -/

/-- The list of artifacts the pending-retry slot accounts for. -/
def slotList : Option TempPath → List TempPath
  | some p => [p]
  | none => []

/-- Main-process invariant: the non-empty converted files on disk are
exactly the content of the pending-retry slot. -/
def InvM (m : MainState) : Prop :=
  liveArtifacts m.disk = slotList m.lastFailedMp3Path

/-- System invariant: `InvM`, and an occupied slot forces the error UI. -/
def SysInv (s : SysState) : Prop :=
  InvM s.main ∧
    (s.main.lastFailedMp3Path.isSome = true → s.ui = UIState.error)

theorem finalizeTranscribe_res (m : MainState) (ts : Nat) (created : Bool)
    (res : OperationStatus) (evs : List Event) :
    (finalizeTranscribe m ts created res evs).2.1 = res := by
  simp only [finalizeTranscribe]
  split <;> rfl

theorem finalizeTranscribe_inv (m : MainState) (ts : Nat) (created : Bool)
    (res : OperationStatus) (evs : List Event)
    (hslot : m.lastFailedMp3Path = none)
    (hlive : liveArtifacts m.disk =
      (if created = true then [TempPath.mp3 ts] else []))
    (hrc : res.retryable = true → created = true) :
    InvM (finalizeTranscribe m ts created res evs).1 ∧
      ((finalizeTranscribe m ts created res evs).1.lastFailedMp3Path.isSome =
          true → res.retryable = true) := by
  by_cases hr : res.retryable = true
  · have hc := hrc hr
    subst hc
    simp only [if_true] at hlive
    constructor
    · show liveArtifacts _ = _
      simp only [finalizeTranscribe, hr, if_true]
      rw [liveArtifacts_cleanupTempFile, hlive]
      simp [slotList]
    · intro _; exact hr
  · constructor
    · show liveArtifacts _ = _
      simp only [finalizeTranscribe, hr, if_false, Bool.false_eq_true]
      cases created with
      | true =>
        simp only [if_true, hideMainWindow_disk, hideMainWindow_slot, hslot]
        simp only [if_true] at hlive
        rw [liveArtifacts_cleanupTempFile, liveArtifacts_cleanupTempFile, hlive]
        simp [slotList]
      | false =>
        simp only [Bool.false_eq_true, if_false, hideMainWindow_disk,
          hideMainWindow_slot, hslot]
        simp only [Bool.false_eq_true, if_false] at hlive
        rw [liveArtifacts_cleanupTempFile, hlive]
        simp [slotList]
    · intro hsome
      exfalso
      simp only [finalizeTranscribe, hr, if_false, Bool.false_eq_true,
        hideMainWindow_slot, hslot] at hsome
      simp at hsome

@[simp] theorem cleanupPreviousRetry_slot (m : MainState) :
    (cleanupPreviousRetry m).lastFailedMp3Path = none := by
  unfold cleanupPreviousRetry
  cases hs : m.lastFailedMp3Path <;> simp [hs]

@[simp] theorem cleanupPreviousRetry_clock (m : MainState) :
    (cleanupPreviousRetry m).clock = m.clock := by
  unfold cleanupPreviousRetry
  cases hs : m.lastFailedMp3Path <;> simp [hs]

theorem cleanupPreviousRetry_live (m : MainState) (h : InvM m) :
    liveArtifacts (cleanupPreviousRetry m).disk = [] := by
  unfold InvM at h
  unfold cleanupPreviousRetry
  cases hs : m.lastFailedMp3Path with
  | none =>
    rw [hs] at h
    simpa [slotList] using h
  | some p =>
    simp only
    rw [liveArtifacts_cleanupTempFile]
    rw [hs] at h
    rw [h]
    simp [slotList]

theorem finalizeTranscribe_triple (m : MainState) (ts : Nat) (created : Bool)
    (res : OperationStatus) (evs : List Event)
    (hslot : m.lastFailedMp3Path = none)
    (hlive : liveArtifacts m.disk =
      (if created = true then [TempPath.mp3 ts] else []))
    (hrc : res.retryable = true → created = true)
    (hrs : res.retryable = true → res.success = false) :
    InvM (finalizeTranscribe m ts created res evs).1 ∧
      ((finalizeTranscribe m ts created res evs).1.lastFailedMp3Path.isSome =
          true →
        (finalizeTranscribe m ts created res evs).2.1.retryable = true) ∧
      ((finalizeTranscribe m ts created res evs).2.1.retryable = true →
        (finalizeTranscribe m ts created res evs).2.1.success = false) := by
  obtain ⟨h1, h2⟩ := finalizeTranscribe_inv m ts created res evs hslot hlive hrc
  rw [finalizeTranscribe_res]
  exact ⟨h1, h2, hrs⟩

theorem transcribeAudioHandler_inv (m0 : MainState) (a : Nat)
    (conv : ConversionOutcome) (env : AttemptEnv) (h : InvM m0) :
    InvM (transcribeAudioHandler m0 a conv env).1 ∧
      ((transcribeAudioHandler m0 a conv env).1.lastFailedMp3Path.isSome =
          true →
        (transcribeAudioHandler m0 a conv env).2.1.retryable = true) ∧
      ((transcribeAudioHandler m0 a conv env).2.1.retryable = true →
        (transcribeAudioHandler m0 a conv env).2.1.success = false) := by
  have h1slot := cleanupPreviousRetry_slot m0
  have h1live := cleanupPreviousRetry_live m0 h
  by_cases ha : a = 0
  · simp only [transcribeAudioHandler, ha, eq_self_iff_true, if_true]
    refine ⟨?_, ?_, ?_⟩
    · show liveArtifacts _ = _
      rw [h1slot, h1live]
      rfl
    · intro hs
      rw [h1slot] at hs
      simp at hs
    · intro hr
      simp at hr
  · cases conv with
    | failure msg =>
      simp only [transcribeAudioHandler, if_neg ha]
      refine finalizeTranscribe_triple _ _ _ _ _ ?_ ?_ ?_ ?_
      · simp [h1slot]
      · simp only
        rw [liveArtifacts_diskWrite]
        simp [TempPath.isMp3, h1live]
      · intro hr; simp at hr
      · intro hr; simp at hr
    | output sz =>
      by_cases hsz : sz = 0
      · simp only [transcribeAudioHandler, if_neg ha, hsz, eq_self_iff_true, if_true]
        refine finalizeTranscribe_triple _ _ _ _ _ ?_ ?_ ?_ ?_
        · simp [h1slot]
        · simp only
          rw [liveArtifacts_diskWrite, liveArtifacts_diskWrite]
          simp [TempPath.isMp3, h1live]
        · intro hr; simp at hr
        · intro hr; simp at hr
      · simp only [transcribeAudioHandler, if_neg ha, if_neg hsz]
        refine finalizeTranscribe_triple _ _ _ _ _ ?_ ?_ ?_ ?_
        · rw [performTranscriptionAndPasting_slot]
          simp [h1slot]
        · rw [performTranscriptionAndPasting_disk]
          simp only
          rw [liveArtifacts_diskWrite, liveArtifacts_diskWrite]
          simp [TempPath.isMp3, h1live, hsz]
        · intro _; rfl
        · exact performTranscriptionAndPasting_retryable_not_success _ _ _

theorem retryTranscriptionHandler_inv (m : MainState) (env : AttemptEnv)
    (h : InvM m) :
    InvM (retryTranscriptionHandler m env).1 ∧
      ((retryTranscriptionHandler m env).1.lastFailedMp3Path.isSome = true →
        (retryTranscriptionHandler m env).2.1.retryable = true) ∧
      ((retryTranscriptionHandler m env).2.1.retryable = true →
        (retryTranscriptionHandler m env).2.1.success = false) := by
  cases hs : m.lastFailedMp3Path with
  | none =>
    simp only [retryTranscriptionHandler, hs]
    refine ⟨?_, ?_, ?_⟩
    · unfold InvM at h ⊢
      rw [hs] at h
      exact hs ▸ h
    · intro hsome
      simp at hsome
    · intro hr
      simp [noPendingRetryResult] at hr
  | some p =>
    have hlive : liveArtifacts m.disk = [p] := by
      unfold InvM at h
      rw [hs] at h
      exact h
    simp only [retryTranscriptionHandler, hs]
    generalize hR : performTranscriptionAndPasting (retryAttemptState m) p env = R
    obtain ⟨m2, res, evs⟩ := R
    have hd : m2.disk = m.disk := by
      have hx := performTranscriptionAndPasting_disk (retryAttemptState m) p env
      rw [hR] at hx
      exact hx
    have hsl : m2.lastFailedMp3Path = none := by
      have hx := performTranscriptionAndPasting_slot (retryAttemptState m) p env
      rw [hR] at hx
      exact hx
    have hrs : res.retryable = true → res.success = false := by
      have hx :=
        performTranscriptionAndPasting_retryable_not_success
          (retryAttemptState m) p env
      rw [hR] at hx
      exact hx
    cases hsucc : res.success with
    | true =>
      simp only [hsucc, eq_self_iff_true, if_true]
      refine ⟨?_, ?_, ?_⟩
      · show liveArtifacts _ = _
        simp only [hideMainWindow_disk, hideMainWindow_slot, hsl]
        rw [liveArtifacts_cleanupTempFile, hd, hlive]
        simp [slotList]
      · intro hsome
        simp [hsl] at hsome
      · intro hr
        have hx := hrs hr
        rwa [hsucc] at hx
    | false =>
      cases hretry : res.retryable with
      | true =>
        simp only [hsucc, hretry, eq_self_iff_true, if_true,
          Bool.false_eq_true, if_false]
        refine ⟨?_, ?_, ?_⟩
        · show liveArtifacts _ = _
          simp only [hd]
          rw [hlive]
          rfl
        · intro _
          trivial
        · intro _
          trivial
      | false =>
        simp only [hsucc, hretry, Bool.false_eq_true, if_false]
        refine ⟨?_, ?_, ?_⟩
        · show liveArtifacts _ = _
          simp only [hideMainWindow_disk, hideMainWindow_slot, hsl]
          rw [liveArtifacts_cleanupTempFile, hd, hlive]
          simp [slotList]
        · intro hsome
          simp [hsl] at hsome
        · intro hx
          exact hx.elim

theorem cancelPendingRetry_inv (m : MainState) (h : InvM m) :
    InvM (cancelPendingRetry m).1 ∧
      (cancelPendingRetry m).1.lastFailedMp3Path = none := by
  cases hs : m.lastFailedMp3Path with
  | none =>
    simp only [cancelPendingRetry, hs]
    refine ⟨?_, ?_⟩
    · show liveArtifacts _ = _
      simp only [hideMainWindow_disk, hideMainWindow_slot, hs]
      unfold InvM at h
      rw [hs] at h
      exact h
    · simp [hs]
  | some p =>
    have hlive : liveArtifacts m.disk = [p] := by
      unfold InvM at h
      rw [hs] at h
      exact h
    simp only [cancelPendingRetry, hs]
    refine ⟨?_, ?_⟩
    · show liveArtifacts _ = _
      simp only [hideMainWindow_disk, hideMainWindow_slot]
      rw [liveArtifacts_cleanupTempFile, hlive]
      simp [slotList]
    · simp

theorem InvM_of_eq (m1 m2 : MainState) (hd : m2.disk = m1.disk)
    (hs : m2.lastFailedMp3Path = m1.lastFailedMp3Path) (h : InvM m1) :
    InvM m2 := by
  unfold InvM at *
  rw [hd, hs]
  exact h

theorem InvM_hideMainWindow (m : MainState) (h : InvM m) :
    InvM (hideMainWindow m) :=
  InvM_of_eq m (hideMainWindow m) (hideMainWindow_disk m)
    (hideMainWindow_slot m) h

theorem pressShortcut_sysInv (s : SysState) (h : SysInv s) :
    SysInv (pressShortcut s).1 := by
  obtain ⟨hm, hui⟩ := h
  cases hlock : s.main.isProcessingShortcut with
  | true =>
    simp only [pressShortcut, hlock, if_true]
    exact ⟨hm, hui⟩
  | false =>
    cases hs : s.main.lastFailedMp3Path with
    | some p =>
      simp only [pressShortcut, hlock, Bool.false_eq_true, if_false, hs]
      obtain ⟨h1, h2⟩ :=
        cancelPendingRetry_inv
          { lastFailedMp3Path := some p, disk := s.main.disk,
            windowVisible := s.main.windowVisible,
            isProcessingShortcut := true, clock := s.main.clock }
          (InvM_of_eq s.main _ rfl hs.symm hm)
      refine ⟨h1, fun hsome => ?_⟩
      exfalso
      simp only [h2, Option.isSome_none] at hsome
      cases hsome
    | none =>
      cases hv : s.main.windowVisible with
      | true =>
        simp only [pressShortcut, hlock, Bool.false_eq_true, if_false, hs, hv,
          if_true]
        refine ⟨InvM_of_eq s.main _ rfl hs.symm hm, fun hsome => ?_⟩
        exfalso
        simp at hsome
      | false =>
        simp only [pressShortcut, hlock, Bool.false_eq_true, if_false, hs, hv]
        refine ⟨InvM_of_eq s.main _ rfl hs.symm hm, fun hsome => ?_⟩
        exfalso
        simp at hsome

theorem sysInv_step (s : SysState) (op : Op) (h : SysInv s) :
    SysInv (sysStep s op).1 := by
  obtain ⟨hm, hui⟩ := h
  cases op with
  | startRecording micOk =>
    by_cases hid : s.ui = UIState.idle
    · cases micOk with
      | true =>
        simp only [sysStep, hid, eq_self_iff_true, if_true]
        refine ⟨hm, fun hsome => ?_⟩
        have hcontra := hui hsome
        rw [hid] at hcontra
        cases hcontra
      | false =>
        simp only [sysStep, hid, eq_self_iff_true, if_true,
          Bool.false_eq_true, if_false]
        exact ⟨hm, hui⟩
    · simp only [sysStep, if_neg hid]
      exact ⟨hm, hui⟩
  | stopCancel =>
    by_cases hrec : s.ui = UIState.recording
    · simp only [sysStep, hrec, eq_self_iff_true, if_true]
      refine ⟨InvM_hideMainWindow _ hm, fun hsome => ?_⟩
      rw [hideMainWindow_slot] at hsome
      have hcontra := hui hsome
      rw [hrec] at hcontra
      cases hcontra
    · simp only [sysStep, if_neg hrec]
      exact ⟨hm, hui⟩
  | stopSave a conv env =>
    by_cases hrec : s.ui = UIState.recording
    · by_cases haz : a = 0
      · simp only [sysStep, hrec, eq_self_iff_true, if_true, haz]
        refine ⟨InvM_hideMainWindow _ hm, fun hsome => ?_⟩
        rw [hideMainWindow_slot] at hsome
        have hcontra := hui hsome
        rw [hrec] at hcontra
        cases hcontra
      · simp only [sysStep, hrec, eq_self_iff_true, if_true, if_neg haz]
        generalize hR : transcribeAudioHandler s.main a conv env = R
        have hfacts := transcribeAudioHandler_inv s.main a conv env hm
        rw [hR] at hfacts
        obtain ⟨hIm, hsome_r, hrs⟩ := hfacts
        obtain ⟨m2, res, evs⟩ := R
        cases hsucc : res.success with
        | true =>
          simp only [hsucc, eq_self_iff_true, if_true]
          refine ⟨hIm, fun hsome => ?_⟩
          have hx := hrs (hsome_r hsome)
          rw [hsucc] at hx
          cases hx
        | false =>
          simp only [hsucc, Bool.false_eq_true, if_false]
          exact ⟨hIm, fun _ => rfl⟩
    · simp only [sysStep, if_neg hrec]
      exact ⟨hm, hui⟩
  | retryClick env =>
    by_cases herr : s.ui = UIState.error
    · simp only [sysStep, herr, eq_self_iff_true, if_true]
      generalize hR : retryTranscriptionHandler s.main env = R
      have hfacts := retryTranscriptionHandler_inv s.main env hm
      rw [hR] at hfacts
      obtain ⟨hIm, hsome_r, hrs⟩ := hfacts
      obtain ⟨m2, res, evs⟩ := R
      cases hsucc : res.success with
      | true =>
        simp only [hsucc, eq_self_iff_true, if_true]
        refine ⟨hIm, fun hsome => ?_⟩
        have hx := hrs (hsome_r hsome)
        rw [hsucc] at hx
        cases hx
      | false =>
        simp only [hsucc, Bool.false_eq_true, if_false]
        exact ⟨hIm, fun _ => rfl⟩
    · simp only [sysStep, if_neg herr]
      exact ⟨hm, hui⟩
  | cancelClick =>
    by_cases herr : s.ui = UIState.error
    · simp only [sysStep, herr, eq_self_iff_true, if_true]
      obtain ⟨h1, h2⟩ := cancelPendingRetry_inv s.main hm
      refine ⟨h1, fun hsome => ?_⟩
      rw [h2] at hsome
      simp at hsome
    · simp only [sysStep, if_neg herr]
      exact ⟨hm, hui⟩
  | hideRequestIPC =>
    simp only [sysStep]
    refine ⟨InvM_hideMainWindow _ hm, fun hsome => ?_⟩
    rw [hideMainWindow_slot] at hsome
    exact hui hsome
  | blur =>
    simp only [sysStep]
    refine ⟨InvM_hideMainWindow _ hm, fun hsome => ?_⟩
    rw [hideMainWindow_slot] at hsome
    exact hui hsome
  | pressKey =>
    simp only [sysStep]
    exact pressShortcut_sysInv s ⟨hm, hui⟩
  | releaseKeyLock =>
    simp only [sysStep]
    exact ⟨hm, hui⟩

theorem sysInv_runFrom (ops : List Op) (s : SysState) (h : SysInv s) :
    SysInv (runFrom ops s) := by
  induction ops generalizing s with
  | nil => exact h
  | cons op ops ih => exact ih (sysStep s op).1 (sysInv_step s op h)

theorem sysInv_runOps (ops : List Op) : SysInv (runOps ops) := by
  refine sysInv_runFrom ops initState ⟨rfl, ?_⟩
  intro hsome
  simp [initState] at hsome

/-! ### Claim theorems -/

/-- C1: for every sequence of start/stop/retry/cancel (and hotkey)
operations, at most one PendingArtifact — a non-empty converted mp3 file —
exists on disk at every observation point; and the cleanup prologue of a
new transcription run leaves zero live artifacts, i.e. a stale
retryable-failure artifact is disposed before any new artifact is
created. -/
theorem c1_at_most_one_pending_artifact (ops : List Op) :
    (liveArtifacts (runOps ops).main.disk).length ≤ 1 ∧
      liveArtifacts (cleanupPreviousRetry (runOps ops).main).disk = [] := by
  obtain ⟨hm, -⟩ := sysInv_runOps ops
  refine ⟨?_, cleanupPreviousRetry_live _ hm⟩
  unfold InvM at hm
  rw [hm]
  cases (runOps ops).main.lastFailedMp3Path <;> simp [slotList]

/-- The spec classification rule (§4.4): an attempt is retryable exactly
when the service reported HTTP 408/429/500/502/503/504, or the failure is
a network-level error (connection reset, timeout, DNS failure). -/
def specRetryableClassification (e : JSError) : Bool :=
  (e.isAPIError &&
    (match e.status with
     | some st => [408, 429, 500, 502, 503, 504].contains st
     | none => false)) ||
  (!e.isAPIError &&
    (match e.code with
     | some c => ["ECONNRESET", "ETIMEDOUT", "ENOTFOUND"].contains c
     | none => false))

theorem catchStatus_retryable (e : JSError) :
    (catchStatus e).retryable = specRetryableClassification e := by
  unfold catchStatus specRetryableClassification isRetryableError
  cases hapi : e.isAPIError with
  | true =>
    simp only [hapi, if_true, Bool.true_and, Bool.not_true, Bool.false_and,
      Bool.or_false, eq_self_iff_true]
  | false =>
    simp only [hapi, Bool.false_eq_true, if_false, Bool.false_and,
      Bool.not_false, Bool.true_and, Bool.false_or]
    cases hc : e.code with
    | none => simp [isNetworkCode]
    | some c =>
      by_cases he : c = "ENOENT"
      · subst he
        simp [isNetworkCode]
      · by_cases hor : c = "ECONNRESET" ∨ c = "ETIMEDOUT" ∨ c = "ENOTFOUND"
        · rcases hor with h | h | h <;> subst h <;> simp [isNetworkCode, hc]
        · have h1 : ¬c = "ECONNRESET" := fun hx => hor (Or.inl hx)
          have h2 : ¬c = "ETIMEDOUT" := fun hx => hor (Or.inr (Or.inl hx))
          have h3 : ¬c = "ENOTFOUND" := fun hx => hor (Or.inr (Or.inr hx))
          simp [isNetworkCode, hc, he, h1, h2, h3]

/-- C2: the outcome of every transcription attempt is classified retryable
exactly when the artifact file exists and the service call failed with one
of HTTP 408/429/500/502/503/504 or a network-level error (ECONNRESET,
ETIMEDOUT, ENOTFOUND); every other outcome — success, empty result,
clipboard/paste failure, missing artifact, any other service error — is
terminal. -/
theorem c2_retryable_classification (m : MainState) (p : TempPath)
    (env : AttemptEnv) :
    (performTranscriptionAndPasting m p env).2.1.retryable =
      (diskHas m.disk p &&
        (match env.svc with
         | .err e => specRetryableClassification e
         | .ok _ => false)) := by
  obtain ⟨svc, cp⟩ := env
  cases hd : diskHas m.disk p with
  | false =>
    simp only [performTranscriptionAndPasting, hd, Bool.false_eq_true,
      if_false, Bool.false_and]
    rw [catchStatus_retryable]
    simp [specRetryableClassification, enoentError]
  | true =>
    cases svc with
    | ok raw =>
      by_cases ht : jsTrim raw = "" <;> cases cp <;>
        simp [performTranscriptionAndPasting, hd, ht, pasteFailStatus]
    | err e =>
      simp only [performTranscriptionAndPasting, hd, if_true, Bool.true_and]
      exact catchStatus_retryable e

/-- C3: the retry handler fails with the no-pending-retry error and changes
nothing when the slot is empty; when the slot holds `p`, the slot is
cleared before the transcription operation is re-invoked, is re-occupied
with the same `p` exactly on a renewed retryable failure, and on success or
terminal failure the slot stays empty and the artifact is deleted from
disk. -/
theorem c3_retry_protocol (m : MainState) (env : AttemptEnv) :
    (m.lastFailedMp3Path = none →
      retryTranscriptionHandler m env = (m, noPendingRetryResult, [])) ∧
    (∀ p, m.lastFailedMp3Path = some p →
      (retryAttemptState m).lastFailedMp3Path = none ∧
      ((retryTranscriptionHandler m env).2.1.retryable = true →
        (retryTranscriptionHandler m env).1.lastFailedMp3Path = some p) ∧
      ((retryTranscriptionHandler m env).2.1.retryable = false →
        (retryTranscriptionHandler m env).1.lastFailedMp3Path = none ∧
        diskHas (retryTranscriptionHandler m env).1.disk p = false)) := by
  constructor
  · intro hn
    simp [retryTranscriptionHandler, hn]
  · intro p hp
    refine ⟨rfl, ?_⟩
    simp only [retryTranscriptionHandler, hp]
    generalize hR : performTranscriptionAndPasting (retryAttemptState m) p env = R
    have hsl0 :=
      performTranscriptionAndPasting_slot (retryAttemptState m) p env
    have hrs0 :=
      performTranscriptionAndPasting_retryable_not_success
        (retryAttemptState m) p env
    rw [hR] at hsl0 hrs0
    obtain ⟨m2, res, evs⟩ := R
    cases hsucc : res.success with
    | true =>
      simp only [hsucc, eq_self_iff_true, if_true]
      constructor
      · intro hr
        exfalso
        have hx := hrs0 hr
        rw [hsucc] at hx
        cases hx
      · intro _
        constructor
        · rw [hideMainWindow_slot]
          exact hsl0
        · have hx : (hideMainWindow
              { m2 with disk := cleanupTempFile m2.disk p }).disk =
                cleanupTempFile m2.disk p := hideMainWindow_disk _
          rw [hx]
          exact diskHas_cleanupTempFile_self _ _
    | false =>
      cases hretry : res.retryable with
      | true =>
        simp only [hsucc, hretry, Bool.false_eq_true, if_false,
          eq_self_iff_true, if_true]
        constructor
        · intro _
          trivial
        · intro hr
          cases hr
      | false =>
        simp only [hsucc, hretry, Bool.false_eq_true, if_false]
        constructor
        · intro hr
          cases hr
        · intro _
          constructor
          · rw [hideMainWindow_slot]
            exact hsl0
          · have hx : (hideMainWindow
                { m2 with disk := cleanupTempFile m2.disk p }).disk =
                  cleanupTempFile m2.disk p := hideMainWindow_disk _
            rw [hx]
            exact diskHas_cleanupTempFile_self _ _

/-- C7: when the transcribed text is non-empty and the clipboard write or
the paste invocation fails, the attempt is a terminal failure
(success = false, retryable = false) and the failure message records that
the text is already on the clipboard ("... Text copied."). -/
theorem c7_paste_failure_terminal (m : MainState) (p : TempPath)
    (env : AttemptEnv) (raw failMsg : String)
    (hfile : diskHas m.disk p = true)
    (hsvc : env.svc = TranscriptionOutcome.ok raw)
    (htext : ¬jsTrim raw = "")
    (hfail : env.copyPaste = PasteOutcome.clipboardFail failMsg ∨
      env.copyPaste = PasteOutcome.pasteFail failMsg) :
    (performTranscriptionAndPasting m p env).2.1.success = false ∧
      (performTranscriptionAndPasting m p env).2.1.retryable = false ∧
      (performTranscriptionAndPasting m p env).2.1.error =
        some ("Paste failed: " ++ failMsg ++ ". Text copied.") := by
  obtain ⟨svc, cp⟩ := env
  cases hsvc
  rcases hfail with hcp | hcp <;> cases hcp <;>
    simp [performTranscriptionAndPasting, hfile, htext, pasteFailStatus]

@[simp] theorem cancelPendingRetry_lock (m : MainState) :
    (cancelPendingRetry m).1.isProcessingShortcut = m.isProcessingShortcut := by
  cases hs : m.lastFailedMp3Path <;>
    simp [cancelPendingRetry, hs, hideMainWindow_lock]

theorem cancelPendingRetry_post (m0 : MainState) :
    (cancelPendingRetry m0).1.lastFailedMp3Path = none ∧
      (cancelPendingRetry m0).1.windowVisible = false := by
  cases hs : m0.lastFailedMp3Path with
  | some p =>
    cases hv : m0.windowVisible <;>
      simp [cancelPendingRetry, hideMainWindow, hs, hv]
  | none =>
    cases hv : m0.windowVisible <;>
      simp [cancelPendingRetry, hideMainWindow, hs, hv]

/-- C8: the cancel operation is idempotent — a second `cancelPendingRetry`
right after a first one changes nothing, does not fail, and still signals
hide-overlay; after one cancel the slot is empty, the window is hidden and
the held artifact is off disk; and at the system level a second
cancel-error click leaves the state of the first (idle) unchanged. -/
theorem c8_cancel_idempotent (m : MainState) (s : SysState) :
    ((cancelPendingRetry (cancelPendingRetry m).1).1 =
        (cancelPendingRetry m).1 ∧
      (cancelPendingRetry m).2 = [Event.hideRequest] ∧
      (cancelPendingRetry (cancelPendingRetry m).1).2 = [Event.hideRequest] ∧
      (cancelPendingRetry m).1.lastFailedMp3Path = none ∧
      (cancelPendingRetry m).1.windowVisible = false ∧
      (match m.lastFailedMp3Path with
       | some p => diskHas (cancelPendingRetry m).1.disk p = false
       | none => True)) ∧
    ((sysStep (sysStep s Op.cancelClick).1 Op.cancelClick).1 =
        (sysStep s Op.cancelClick).1 ∧
      (match s.ui with
       | UIState.error => (sysStep s Op.cancelClick).1.ui = UIState.idle
       | _ => True)) := by
  have hev : ∀ m0 : MainState,
      (cancelPendingRetry m0).2 = [Event.hideRequest] := by
    intro m0
    cases hs : m0.lastFailedMp3Path <;> simp [cancelPendingRetry, hs]
  have hidem :
      (cancelPendingRetry (cancelPendingRetry m).1).1 =
        (cancelPendingRetry m).1 := by
    obtain ⟨h1, h2⟩ := cancelPendingRetry_post m
    revert h1 h2
    generalize (cancelPendingRetry m).1 = M
    intro h1 h2
    simp [cancelPendingRetry, hideMainWindow, h1, h2]
  refine ⟨⟨hidem, hev m, hev _, (cancelPendingRetry_post m).1,
    (cancelPendingRetry_post m).2, ?_⟩, ?_, ?_⟩
  · cases hs : m.lastFailedMp3Path with
    | some p =>
      simp only [cancelPendingRetry, hs, hideMainWindow_disk]
      exact diskHas_cleanupTempFile_self _ _
    | none => trivial
  · by_cases herr : s.ui = UIState.error
    · have h1 : (sysStep s Op.cancelClick).1.ui = UIState.idle := by
        simp [sysStep, herr]
      revert h1
      generalize (sysStep s Op.cancelClick).1 = S1
      intro h1
      simp [sysStep, h1]
    · simp [sysStep, herr]
  · cases hui : s.ui <;> simp [sysStep, hui]

/-- Number of dispatched decisions (0 or 1) of one hotkey press. -/
def decisionCount : Option Decision → Nat
  | some _ => 1
  | none => 0

theorem pressShortcut_locks (s : SysState)
    (hl : s.main.isProcessingShortcut = false) :
    (pressShortcut s).1.main.isProcessingShortcut = true := by
  simp only [pressShortcut, hl, Bool.false_eq_true, if_false]
  cases hs : s.main.lastFailedMp3Path with
  | some p => simp [hs, cancelPendingRetry_lock]
  | none => cases hv : s.main.windowVisible <;> simp [hs, hv]

/-- C9: while the shortcut lock is held, a hotkey press is dropped with a
log — the state is unchanged, no decision is dispatched, nothing is queued
— and, consequently, two presses in a row with no lock release in between
dispatch at most one start/stop/cancel decision. -/
theorem c9_lock_drops_second_press (s : SysState) :
    (s.main.isProcessingShortcut = true →
      pressShortcut s = (s, none, [Event.droppedShortcut])) ∧
    decisionCount (pressShortcut s).2.1 +
      decisionCount (pressShortcut (pressShortcut s).1).2.1 ≤ 1 := by
  constructor
  · intro hl
    simp [pressShortcut, hl]
  · cases hl : s.main.isProcessingShortcut with
    | true =>
      simp [pressShortcut, hl, decisionCount]
    | false =>
      have h2 : (pressShortcut (pressShortcut s).1).2.1 = none := by
        have hx := pressShortcut_locks s hl
        revert hx
        generalize (pressShortcut s).1 = S1
        intro hx
        simp [pressShortcut, hx]
      rw [h2]
      cases hd : (pressShortcut s).2.1 <;> simp [hd, decisionCount]

@[simp] theorem cleanupPreviousRetry_visible (m : MainState) :
    (cleanupPreviousRetry m).windowVisible = m.windowVisible := by
  unfold cleanupPreviousRetry
  cases hs : m.lastFailedMp3Path <;> simp [hs]

theorem hideMainWindow_keeps_visible (m : MainState) (p : TempPath)
    (h : m.lastFailedMp3Path = some p) :
    (hideMainWindow m).windowVisible = m.windowVisible := by
  simp [hideMainWindow, h]

theorem hideMainWindow_disc (m : MainState) :
    (hideMainWindow m).lastFailedMp3Path = none ∨
      (hideMainWindow m).windowVisible = m.windowVisible := by
  unfold hideMainWindow
  by_cases hc : (m.windowVisible && m.lastFailedMp3Path.isNone) = true
  · rw [if_pos hc]
    left
    simp only [Bool.and_eq_true, Option.isNone_iff_eq_none] at hc
    exact hc.2
  · rw [if_neg hc]
    right
    rfl

theorem performTranscriptionAndPasting_retryable_visible (m : MainState)
    (p : TempPath) (env : AttemptEnv)
    (h : (performTranscriptionAndPasting m p env).2.1.retryable = true) :
    (performTranscriptionAndPasting m p env).1.windowVisible =
      m.windowVisible := by
  obtain ⟨svc, cp⟩ := env
  cases hd : diskHas m.disk p with
  | false => simp [performTranscriptionAndPasting, hd]
  | true =>
    cases svc with
    | err e => simp [performTranscriptionAndPasting, hd]
    | ok raw =>
      by_cases ht : jsTrim raw = "" <;>
        cases cp <;>
          simp [performTranscriptionAndPasting, hd, ht, pasteFailStatus] at h ⊢

theorem finalizeTranscribe_slot_of_not_retryable (m : MainState) (ts : Nat)
    (created : Bool) (res : OperationStatus) (evs : List Event)
    (h : res.retryable = false) (hslot : m.lastFailedMp3Path = none) :
    (finalizeTranscribe m ts created res evs).1.lastFailedMp3Path = none := by
  simp only [finalizeTranscribe, h, Bool.false_eq_true, if_false,
    hideMainWindow_slot]
  exact hslot

theorem finalizeTranscribe_retryable_visible (m : MainState) (ts : Nat)
    (created : Bool) (res : OperationStatus) (evs : List Event)
    (h : res.retryable = true) :
    (finalizeTranscribe m ts created res evs).1.windowVisible =
      m.windowVisible := by
  simp [finalizeTranscribe, h]

theorem transcribeAudioHandler_disc (m : MainState) (a : Nat)
    (conv : ConversionOutcome) (env : AttemptEnv) :
    (transcribeAudioHandler m a conv env).1.lastFailedMp3Path = none ∨
      (transcribeAudioHandler m a conv env).1.windowVisible =
        m.windowVisible := by
  by_cases ha : a = 0
  · left
    simp [transcribeAudioHandler, ha, cleanupPreviousRetry_slot]
  · cases conv with
    | failure msg =>
      left
      simp only [transcribeAudioHandler, if_neg ha]
      exact finalizeTranscribe_slot_of_not_retryable _ _ _ _ _ rfl
        (cleanupPreviousRetry_slot m)
    | output sz =>
      by_cases hsz : sz = 0
      · left
        simp only [transcribeAudioHandler, if_neg ha, hsz, eq_self_iff_true,
          if_true]
        exact finalizeTranscribe_slot_of_not_retryable _ _ _ _ _ rfl
          (cleanupPreviousRetry_slot m)
      · simp only [transcribeAudioHandler, if_neg ha, if_neg hsz]
        cases hre : (performTranscriptionAndPasting
            { cleanupPreviousRetry m with
                clock := (cleanupPreviousRetry m).clock + 1,
                disk := diskWrite
                  (diskWrite (cleanupPreviousRetry m).disk
                    (TempPath.webm (cleanupPreviousRetry m).clock) a)
                  (TempPath.mp3 (cleanupPreviousRetry m).clock) sz }
            (TempPath.mp3 (cleanupPreviousRetry m).clock) env).2.1.retryable
          with
        | false =>
          left
          refine finalizeTranscribe_slot_of_not_retryable _ _ _ _ _ hre ?_
          rw [performTranscriptionAndPasting_slot]
          exact cleanupPreviousRetry_slot m
        | true =>
          right
          rw [finalizeTranscribe_retryable_visible _ _ _ _ _ hre,
            performTranscriptionAndPasting_retryable_visible _ _ _ hre]
          exact cleanupPreviousRetry_visible m

theorem retryTranscriptionHandler_disc (m : MainState) (env : AttemptEnv) :
    (retryTranscriptionHandler m env).1.lastFailedMp3Path = none ∨
      (retryTranscriptionHandler m env).1.windowVisible =
        m.windowVisible := by
  cases hs : m.lastFailedMp3Path with
  | none =>
    left
    simp [retryTranscriptionHandler, hs]
  | some p =>
    simp only [retryTranscriptionHandler, hs]
    generalize hR :
      performTranscriptionAndPasting (retryAttemptState m) p env = R
    have hsl := performTranscriptionAndPasting_slot (retryAttemptState m) p env
    have hvl :=
      performTranscriptionAndPasting_retryable_visible (retryAttemptState m)
        p env
    rw [hR] at hsl hvl
    obtain ⟨m2, res, evs⟩ := R
    cases hsucc : res.success with
    | true =>
      left
      simp only [hsucc, eq_self_iff_true, if_true, hideMainWindow_slot]
      exact hsl
    | false =>
      cases hretry : res.retryable with
      | true =>
        right
        simp only [hsucc, hretry, Bool.false_eq_true, if_false,
          eq_self_iff_true, if_true]
        exact hvl hretry
      | false =>
        left
        simp only [hsucc, hretry, Bool.false_eq_true, if_false,
          hideMainWindow_slot]
        exact hsl

theorem pressShortcut_disc (s : SysState) :
    (pressShortcut s).1.main.lastFailedMp3Path = none ∨
      (pressShortcut s).1.main.windowVisible = s.main.windowVisible := by
  cases hl : s.main.isProcessingShortcut with
  | true =>
    right
    simp [pressShortcut, hl]
  | false =>
    cases hs : s.main.lastFailedMp3Path with
    | some p =>
      left
      simp only [pressShortcut, hl, Bool.false_eq_true, if_false, hs]
      exact (cancelPendingRetry_post _).1
    | none =>
      cases hv : s.main.windowVisible with
      | true =>
        right
        simp [pressShortcut, hl, hs, hv]
      | false =>
        left
        simp [pressShortcut, hl, hs, hv]

theorem sysStep_hide_disc (s : SysState) (op : Op) :
    (sysStep s op).1.main.lastFailedMp3Path = none ∨
      (sysStep s op).1.main.windowVisible = s.main.windowVisible := by
  cases op with
  | startRecording micOk =>
    by_cases hid : s.ui = UIState.idle
    · cases micOk <;> right <;> simp [sysStep, hid]
    · right
      simp [sysStep, hid]
  | stopCancel =>
    by_cases hrec : s.ui = UIState.recording
    · simp only [sysStep, hrec, eq_self_iff_true, if_true]
      exact hideMainWindow_disc s.main
    · right
      simp [sysStep, hrec]
  | stopSave a conv env =>
    by_cases hrec : s.ui = UIState.recording
    · by_cases haz : a = 0
      · simp only [sysStep, hrec, eq_self_iff_true, if_true, haz]
        exact hideMainWindow_disc s.main
      · simp only [sysStep, hrec, eq_self_iff_true, if_true, if_neg haz]
        rcases transcribeAudioHandler_disc s.main a conv env with h | h <;>
          [left; right] <;>
          cases hsucc :
            (transcribeAudioHandler s.main a conv env).2.1.success <;>
          simp [hsucc, h]
    · right
      simp [sysStep, hrec]
  | retryClick env =>
    by_cases herr : s.ui = UIState.error
    · simp only [sysStep, herr, eq_self_iff_true, if_true]
      rcases retryTranscriptionHandler_disc s.main env with h | h <;>
        [left; right] <;>
        cases hsucc :
          (retryTranscriptionHandler s.main env).2.1.success <;>
        simp [hsucc, h]
    · right
      simp [sysStep, herr]
  | cancelClick =>
    by_cases herr : s.ui = UIState.error
    · left
      simp only [sysStep, herr, eq_self_iff_true, if_true]
      exact (cancelPendingRetry_post _).1
    · right
      simp [sysStep, herr]
  | hideRequestIPC =>
    simp only [sysStep]
    exact hideMainWindow_disc s.main
  | blur =>
    simp only [sysStep]
    exact hideMainWindow_disc s.main
  | pressKey =>
    simp only [sysStep]
    exact pressShortcut_disc s
  | releaseKeyLock =>
    right
    simp [sysStep]

/-- C10: while the pending-retry slot is occupied, the renderer hide-window
IPC request, the window blur handler and the pre-paste hide all leave the
window visibility unchanged (the overlay stays up); and over every
operation, the window can only go from visible to hidden when the
pending-retry slot is empty afterwards. -/
theorem c10_hide_suppressed_while_retry_pending (s : SysState)
    (m : MainState) (p : TempPath) (op : Op) :
    (s.main.lastFailedMp3Path = some p →
      (sysStep s Op.hideRequestIPC).1.main.windowVisible =
          s.main.windowVisible ∧
        (sysStep s Op.blur).1.main.windowVisible = s.main.windowVisible) ∧
    (m.lastFailedMp3Path = some p →
      (pasteHideStep m).windowVisible = m.windowVisible ∧
      (hideMainWindow m).windowVisible = m.windowVisible) ∧
    ((sysStep s op).1.main.windowVisible = false →
      s.main.windowVisible = true →
      (sysStep s op).1.main.lastFailedMp3Path = none) := by
  refine ⟨?_, ?_, ?_⟩
  · intro hs
    constructor
    · show (hideMainWindow s.main).windowVisible = s.main.windowVisible
      exact hideMainWindow_keeps_visible s.main p hs
    · show (hideMainWindow s.main).windowVisible = s.main.windowVisible
      exact hideMainWindow_keeps_visible s.main p hs
  · intro hm
    exact ⟨by simp [pasteHideStep, hm], by simp [hideMainWindow, hm]⟩
  · intro h1 h2
    rcases sysStep_hide_disc s op with h | h
    · exact h
    · exfalso
      rw [h, h2] at h1
      cases h1

/-! ### Concrete environments, traces and the remaining claims -/

/-- A retryable service failure: HTTP 503. -/
def envApi503 : AttemptEnv :=
  { svc := .err { isAPIError := true, status := some 503, code := none,
                  message := "The server is overloaded" },
    copyPaste := .ok }

/-- A terminal service failure: HTTP 401. -/
def envApi401 : AttemptEnv :=
  { svc := .err { isAPIError := true, status := some 401, code := none,
                  message := "Invalid API key" },
    copyPaste := .ok }

/-- A terminal service failure: HTTP 400. -/
def envApi400 : AttemptEnv :=
  { svc := .err { isAPIError := true, status := some 400, code := none,
                  message := "Bad request" },
    copyPaste := .ok }

/-- Environment for a silent recording; the service is never invoked. -/
def envUnusedSilent : AttemptEnv := { svc := .ok "", copyPaste := .ok }

/-- Hotkey shows the overlay, the lock is released, recording starts. -/
def traceStart : List Op :=
  [Op.pressKey, Op.releaseKeyLock, Op.startRecording true]

/-- Record, then stop-and-process with the service returning HTTP 503. -/
def trace503 : List Op :=
  traceStart ++ [Op.stopSave 5 (ConversionOutcome.output 3) envApi503]

/-- Record, then stop-and-process with the service returning HTTP 401. -/
def trace401 : List Op :=
  traceStart ++ [Op.stopSave 5 (ConversionOutcome.output 3) envApi401]

/-- Record, then stop-and-process with the service returning HTTP 400. -/
def trace400 : List Op :=
  traceStart ++ [Op.stopSave 6 (ConversionOutcome.output 4) envApi400]

/-- C4 (amended): in every reachable state an occupied pending-retry slot
implies the error UI state; the claimed converse fails (see the
counterexample theorem). -/
theorem c4_slot_occupied_implies_error_state (ops : List Op) (p : TempPath)
    (h : (runOps ops).main.lastFailedMp3Path = some p) :
    (runOps ops).ui = UIState.error := by
  obtain ⟨-, hui⟩ := sysInv_runOps ops
  refine hui ?_
  rw [h]
  rfl

theorem c4_slot_occupied_implies_error_state_witness :
    (runOps trace503).main.lastFailedMp3Path = some (TempPath.mp3 0) ∧
      (runOps trace503).ui = UIState.error :=
  ⟨by decide,
    c4_slot_occupied_implies_error_state trace503 (TempPath.mp3 0)
      (by decide)⟩

/-- C4 counterexample: after a terminal (HTTP 401) failure of the initial
attempt, the renderer is in the error UI state while the pending-retry slot
is empty, refuting the claimed equivalence of the error state with an
occupied slot. -/
theorem c4_error_iff_slot_refuted :
    ¬ ((runOps trace401).ui = UIState.error ↔
        (runOps trace401).main.lastFailedMp3Path.isSome = true) := by
  decide

theorem hideMainWindow_hides (m : MainState)
    (h : m.lastFailedMp3Path = none) :
    (hideMainWindow m).windowVisible = false := by
  cases hv : m.windowVisible <;> simp [hideMainWindow, h, hv]

theorem finalizeTranscribe_terminal (m : MainState) (ts : Nat)
    (created : Bool) (res : OperationStatus) (evs : List Event)
    (hslot : m.lastFailedMp3Path = none)
    (hterm : res.retryable = false) :
    (finalizeTranscribe m ts created res evs).1.windowVisible = false ∧
      (finalizeTranscribe m ts created res evs).1.lastFailedMp3Path = none ∧
      (res.success = false →
        ∀ msg, res.error = some msg →
          strContains msg "silence" = false →
          strContains msg "copy/paste failed" = false →
          Event.dialogShown ∈
            (finalizeTranscribe m ts created res evs).2.2) := by
  simp only [finalizeTranscribe, hterm, Bool.false_eq_true, if_false]
  refine ⟨hideMainWindow_hides _ hslot, ?_, ?_⟩
  · rw [hideMainWindow_slot]
    exact hslot
  · intro hsucc msg herr hsil hcp
    simp [hsucc, hterm, herr, hsil, hcp]

theorem transcribeAudioHandler_terminal (m : MainState) (a : Nat)
    (conv : ConversionOutcome) (env : AttemptEnv)
    (ha : ¬a = 0)
    (hterm :
      (transcribeAudioHandler m a conv env).2.1.retryable = false) :
    (transcribeAudioHandler m a conv env).1.windowVisible = false ∧
      (transcribeAudioHandler m a conv env).1.lastFailedMp3Path = none ∧
      ((transcribeAudioHandler m a conv env).2.1.success = false →
        ∀ msg,
          (transcribeAudioHandler m a conv env).2.1.error = some msg →
          strContains msg "silence" = false →
          strContains msg "copy/paste failed" = false →
          Event.dialogShown ∈
            (transcribeAudioHandler m a conv env).2.2) := by
  cases conv with
  | failure msg0 =>
    simp only [transcribeAudioHandler, if_neg ha]
    exact finalizeTranscribe_terminal _ _ _ _ _
      (cleanupPreviousRetry_slot m) rfl
  | output sz =>
    by_cases hsz : sz = 0
    · simp only [transcribeAudioHandler, if_neg ha, hsz, eq_self_iff_true,
        if_true]
      exact finalizeTranscribe_terminal _ _ _ _ _
        (cleanupPreviousRetry_slot m) rfl
    · simp only [transcribeAudioHandler, if_neg ha, if_neg hsz] at hterm ⊢
      rw [finalizeTranscribe_res] at hterm
      rw [finalizeTranscribe_res]
      refine finalizeTranscribe_terminal _ _ _ _ _ ?_ hterm
      rw [performTranscriptionAndPasting_slot]
      exact cleanupPreviousRetry_slot m

/-- C5 (amended): when a processing attempt completes with a terminal
(non-retryable) failure, the overlay is hidden, the pending-retry slot is
left empty (so nothing awaits a retry), and the failure is reported via the
error dialog for messages that are not silence- or paste-related; but the
renderer transitions to the error UI state showing the message, not to
idle. -/
theorem c5_terminal_failure_behavior (s : SysState) (a : Nat)
    (conv : ConversionOutcome) (env : AttemptEnv)
    (hrec : s.ui = UIState.recording) (ha : ¬a = 0)
    (hfail :
      (transcribeAudioHandler s.main a conv env).2.1.success = false)
    (hterm :
      (transcribeAudioHandler s.main a conv env).2.1.retryable = false) :
    (sysStep s (Op.stopSave a conv env)).1.ui = UIState.error ∧
      (sysStep s (Op.stopSave a conv env)).1.main.windowVisible = false ∧
      (sysStep s (Op.stopSave a conv env)).1.main.lastFailedMp3Path =
        none ∧
      (∀ msg,
        (transcribeAudioHandler s.main a conv env).2.1.error = some msg →
        strContains msg "silence" = false →
        strContains msg "copy/paste failed" = false →
        Event.dialogShown ∈ (sysStep s (Op.stopSave a conv env)).2) := by
  obtain ⟨hv, hsl, hdlg⟩ :=
    transcribeAudioHandler_terminal s.main a conv env ha hterm
  have hstep : sysStep s (Op.stopSave a conv env) =
      ({ main := (transcribeAudioHandler s.main a conv env).1,
         ui := UIState.error },
       (transcribeAudioHandler s.main a conv env).2.2) := by
    simp [sysStep, hrec, if_neg ha, hfail]
  rw [hstep]
  exact ⟨rfl, hv, hsl, fun msg h1 h2 h3 => hdlg hfail msg h1 h2 h3⟩

theorem c5_terminal_failure_behavior_witness :
    (sysStep (runOps traceStart)
        (Op.stopSave 5 (ConversionOutcome.output 3) envApi401)).1.ui =
        UIState.error ∧
      (sysStep (runOps traceStart)
          (Op.stopSave 5 (ConversionOutcome.output 3)
            envApi401)).1.main.windowVisible = false := by
  have h := c5_terminal_failure_behavior (runOps traceStart) 5
    (ConversionOutcome.output 3) envApi401 (by decide) (by decide)
    (by decide) (by decide)
  exact ⟨h.1, h.2.1⟩

/-- C5 counterexample: a terminal HTTP 400 failure of the initial attempt
leaves the renderer in the error state, not in idle, refuting the claimed
terminal-failure-to-idle transition of the Recording State Machine. -/
theorem c5_terminal_failure_not_idle :
    (transcribeAudioHandler (runOps traceStart).main 6
        (ConversionOutcome.output 4) envApi400).2.1.success = false ∧
      (transcribeAudioHandler (runOps traceStart).main 6
          (ConversionOutcome.output 4) envApi400).2.1.retryable = false ∧
      ¬(runOps trace400).ui = UIState.idle := by
  decide

/-- C6: evaluating the code on a silent recording (conversion output of
size zero): the result is success-shaped, the service is never called and
nothing reaches the clipboard, the overlay hides and the slot stays empty —
but the zero-byte converted output file `rec-output-0.mp3` remains on disk
(`mp3FileCreated` is still false on this path, so the finally block never
unlinks it), contradicting the claim that no artifact remains. -/
theorem c6_silent_input_leaves_zero_byte_file :
    (transcribeAudioHandler (runOps traceStart).main 5
        (ConversionOutcome.output 0) envUnusedSilent).2.1.success = true ∧
      (transcribeAudioHandler (runOps traceStart).main 5
          (ConversionOutcome.output 0) envUnusedSilent).2.1.error =
        some "Recording contained only silence." ∧
      (transcribeAudioHandler (runOps traceStart).main 5
          (ConversionOutcome.output 0) envUnusedSilent).2.2 =
        [Event.hideRequest] ∧
      (transcribeAudioHandler (runOps traceStart).main 5
          (ConversionOutcome.output 0)
          envUnusedSilent).1.windowVisible = false ∧
      (transcribeAudioHandler (runOps traceStart).main 5
          (ConversionOutcome.output 0)
          envUnusedSilent).1.lastFailedMp3Path = none ∧
      liveArtifacts (transcribeAudioHandler (runOps traceStart).main 5
          (ConversionOutcome.output 0) envUnusedSilent).1.disk = [] ∧
      diskHas (transcribeAudioHandler (runOps traceStart).main 5
          (ConversionOutcome.output 0) envUnusedSilent).1.disk
        (TempPath.mp3 0) = true := by
  decide

/-! ### Witness states and witness theorems -/

/-- A main state with an empty pending-retry slot. -/
def mSlotEmpty : MainState :=
  { lastFailedMp3Path := none, disk := [], windowVisible := false,
    isProcessingShortcut := false, clock := 0 }

/-- A main state holding a preserved artifact in the pending-retry slot. -/
def mSlotHeld : MainState :=
  { lastFailedMp3Path := some (TempPath.mp3 0),
    disk := [(TempPath.mp3 0, 4)], windowVisible := true,
    isProcessingShortcut := false, clock := 1 }

/-- A main state with an mp3 on disk and an empty slot. -/
def mDiskWithMp3 : MainState :=
  { lastFailedMp3Path := none, disk := [(TempPath.mp3 0, 4)],
    windowVisible := true, isProcessingShortcut := false, clock := 1 }

/-- A paste-failure environment with non-empty transcribed text. -/
def envPasteFail : AttemptEnv :=
  { svc := .ok " hello there ", copyPaste := .pasteFail "xdotool not found" }

/-- A system state whose shortcut lock is currently held. -/
def sLockHeld : SysState :=
  { main := { lastFailedMp3Path := none, disk := [], windowVisible := true,
              isProcessingShortcut := true, clock := 0 },
    ui := UIState.idle }

/-- A system state in the error UI with a pending retry. -/
def sRetryPending : SysState :=
  { main := mSlotHeld, ui := UIState.error }

theorem c3_retry_protocol_witness :
    retryTranscriptionHandler mSlotEmpty envApi503 =
        (mSlotEmpty, noPendingRetryResult, []) ∧
      (retryTranscriptionHandler mSlotHeld envApi503).1.lastFailedMp3Path =
        some (TempPath.mp3 0) :=
  ⟨(c3_retry_protocol mSlotEmpty envApi503).1 rfl,
    ((c3_retry_protocol mSlotHeld envApi503).2 (TempPath.mp3 0)
      rfl).2.1 (by decide)⟩

theorem c7_paste_failure_terminal_witness :
    (performTranscriptionAndPasting mDiskWithMp3 (TempPath.mp3 0)
        envPasteFail).2.1.success = false ∧
      (performTranscriptionAndPasting mDiskWithMp3 (TempPath.mp3 0)
          envPasteFail).2.1.error =
        some "Paste failed: xdotool not found. Text copied." := by
  have h := c7_paste_failure_terminal mDiskWithMp3 (TempPath.mp3 0)
    envPasteFail " hello there " "xdotool not found" (by decide) rfl
    (by decide) (Or.inr rfl)
  exact ⟨h.1, h.2.2.trans (by decide)⟩

theorem c9_lock_drops_second_press_witness :
    pressShortcut sLockHeld = (sLockHeld, none, [Event.droppedShortcut]) :=
  (c9_lock_drops_second_press sLockHeld).1 rfl

theorem c10_hide_suppressed_witness :
    (sysStep sRetryPending Op.hideRequestIPC).1.main.windowVisible = true ∧
      (sysStep sRetryPending Op.blur).1.main.windowVisible = true ∧
      (sysStep { main := mDiskWithMp3, ui := UIState.idle }
          Op.hideRequestIPC).1.main.lastFailedMp3Path = none := by
  have h1 := (c10_hide_suppressed_while_retry_pending sRetryPending
    mSlotHeld (TempPath.mp3 0) Op.hideRequestIPC).1 rfl
  have h3 := (c10_hide_suppressed_while_retry_pending
    { main := mDiskWithMp3, ui := UIState.idle } mSlotHeld (TempPath.mp3 0)
    Op.hideRequestIPC).2.2 (by decide) (by decide)
  exact ⟨h1.1.trans (by decide), h1.2.trans (by decide), h3⟩
